import Mathlib

/-!
# Verification of the Ludo clembench core (kimono998/ludo_clembench)

Shallow embedding of the repository's turn engine and move oracles:

* `src/games/ludo/instancegenerator.py` — the sequence oracle
  (`find_monotoken_minimum`, `find_multitoken_minimum`);
* `src/games/ludo/minimax.py` — the adversarial oracle (`GameSim`, `minimax`);
* `src/games/ludo/master.py` — the move legality checker (`_check_move` and
  helpers) and the retry loop of `_does_game_proceed` / `_get_response`;
* `src/games/ludo/player.py` — the move parser `parse_text` and the
  programmatic player's `_make_move`;
* `src/games/ludo/game.py` — the attribute set initialised by `Game.__init__`.

Python `float('inf')` sentinels are modelled with `⊤` in `ℕ∞` (the DP solver,
whose finite values are move counts) and in `WithBot (WithTop ℤ)` (minimax,
whose `alpha`/`beta` start at `float('-inf')`/`float('inf')`).  Exceptions are
modelled with `Except String`.  The move-sequence component returned by the DP
solver (Python's `best_sequence`) is not modelled: the minimum move count is
computed independently of it in the source (only `next_moves + 1 <
min_move_count` comparisons), and the properties below concern the count only.
-/

namespace Ludo

/-! ## Sequence oracle (instancegenerator.py)

`find_multitoken_minimum(rolls, n_fields, memorized_moves, X, Y, index)`:
the memo dictionary only caches results of the pure recursion, so it is
dropped; the recursion over `(X, Y, index)` is reproduced verbatim.
`min_move_count` starts at `float('inf')` (here `⊤ : ℕ∞`) and each explored
branch performs `if next_moves + 1 < min_move_count: min_move_count :=
next_moves + 1`.  `rolls[index]` is only evaluated under the guard
`index < len(rolls)`, so `List.getD` with default 0 is faithful. -/

/-- One accumulator update of the solver's running minimum: when the guard
holds, `if next_moves + 1 < min_move_count: min_move_count = next_moves + 1`;
otherwise the accumulator is unchanged. -/
def step (c : Prop) [Decidable c] (v acc : ℕ∞) : ℕ∞ :=
  if c then (if v < acc then v else acc) else acc

def find_multitoken_minimum (n_fields : ℕ) (rolls : List ℕ) (X Y index : ℕ) : ℕ∞ :=
  -- `if X == n_fields and Y == n_fields: return 0, []`
  if X = n_fields ∧ Y = n_fields then 0
  -- `if index >= len(rolls): return float('inf'), []`
  else if h : rolls.length ≤ index then ⊤
  else
    -- `min_move_count` starts at `float('inf')` and the four guarded branches
    -- update it in source order (innermost `step` first):
    -- `if X != 0:` … `if new_X != Y or new_X == n_fields:`,
    -- `if Y != 0:` … `if new_Y != X or new_Y == n_fields:`,
    -- `if roll == 6: if X == 0 and Y != 1:`, `if Y == 0 and 1 != X:`,
    -- with `new_X = X + roll if X + roll <= n_fields else X` (resp. `new_Y`).
    let roll := rolls.getD index 0
    let newX := if X + roll ≤ n_fields then X + roll else X
    let newY := if Y + roll ≤ n_fields then Y + roll else Y
    step (roll = 6 ∧ Y = 0 ∧ 1 ≠ X)
      (find_multitoken_minimum n_fields rolls X 1 (index + 1) + 1)
      (step (roll = 6 ∧ X = 0 ∧ Y ≠ 1)
        (find_multitoken_minimum n_fields rolls 1 Y (index + 1) + 1)
        (step (Y ≠ 0 ∧ (newY ≠ X ∨ newY = n_fields))
          (find_multitoken_minimum n_fields rolls X newY (index + 1) + 1)
          (step (X ≠ 0 ∧ (newX ≠ Y ∨ newX = n_fields))
            (find_multitoken_minimum n_fields rolls newX Y (index + 1) + 1) ⊤)))
termination_by rolls.length - index
decreasing_by all_goals omega

/-- `find_monotoken_minimum(rolls, n_fields, memorized_moves, X, index)`.
Note two features of the source (lines 309–340): the advance branch is guarded
by `if new_X == n_fields:` (the advance is only explored when it lands exactly
on the final field), and both recursive calls go to `find_multitoken_minimum`
with the `Y` parameter left at its default `0`. -/
def find_monotoken_minimum (n_fields : ℕ) (rolls : List ℕ) (X index : ℕ) : ℕ∞ :=
  -- `if X == n_fields: return 0, []`
  if X = n_fields then 0
  -- `if index >= len(rolls): return float('inf'), []`
  else if rolls.length ≤ index then ⊤
  else
    -- `if X != 0:` … `if new_X == n_fields:` →  `find_multitoken_minimum(..., X=new_X)`
    -- then `if roll == 6: if X == 0:` →  `find_multitoken_minimum(..., X=1)`
    let roll := rolls.getD index 0
    let newX := if X + roll ≤ n_fields then X + roll else X
    step (roll = 6 ∧ X = 0)
      (find_multitoken_minimum n_fields rolls 1 0 (index + 1) + 1)
      (step (X ≠ 0 ∧ newX = n_fields)
        (find_multitoken_minimum n_fields rolls newX 0 (index + 1) + 1) ⊤)

/-! ### The transition sets actually explored by the solver -/

/-- Child states `(X', Y')` explored by `find_multitoken_minimum` at a
non-terminal state, in source order. -/
def multitoken_children (n_fields roll X Y : ℕ) : List (ℕ × ℕ) :=
  let newX := if X + roll ≤ n_fields then X + roll else X
  let newY := if Y + roll ≤ n_fields then Y + roll else Y
  (if X ≠ 0 ∧ (newX ≠ Y ∨ newX = n_fields) then [(newX, Y)] else []) ++
  (if Y ≠ 0 ∧ (newY ≠ X ∨ newY = n_fields) then [(X, newY)] else []) ++
  (if roll = 6 ∧ X = 0 ∧ Y ≠ 1 then [(1, Y)] else []) ++
  (if roll = 6 ∧ Y = 0 ∧ 1 ≠ X then [(X, 1)] else [])

/-- Child states `(X', Y')` explored by `find_monotoken_minimum` at a
non-terminal state.  The children are states of the *two*-token solver: the
source's recursive calls are `find_multitoken_minimum(..., X=new_X)` and
`find_multitoken_minimum(..., X=1)` with `Y` left at its default `0`. -/
def monotoken_children (n_fields roll X : ℕ) : List (ℕ × ℕ) :=
  let newX := if X + roll ≤ n_fields then X + roll else X
  (if X ≠ 0 ∧ newX = n_fields then [(newX, 0)] else []) ++
  (if roll = 6 ∧ X = 0 then [(1, 0)] else [])

/-- Positions reachable by a token when every roll is a 6 on a 23-field
board: entering puts a token on field 1 and each advance adds 6 (or, on
overshoot, leaves the token in place). -/
def sixes_reachable (z : ℕ) : Prop :=
  z = 0 ∨ z = 1 ∨ z = 7 ∨ z = 13 ∨ z = 19

/-! ## Adversarial oracle (minimax.py)

`GameSim` holds the board size, tokens per side, a position dictionary
(modelled as a function on token names), the roll-pair sequence and the turn
index.  Scores live in `WithBot (WithTop ℤ)`: the search seeds `best_score`
with `float('-inf')`/`float('inf')` (`⊥`/`⊤`) while `score()` itself returns
an integer. -/

abbrev Move := String × ℕ

abbrev MMValue := WithBot (WithTop ℤ)

def toValue (z : ℤ) : MMValue := ((z : WithTop ℤ) : MMValue)

structure GameSim where
  n_fields : ℕ
  n_tokens : ℕ
  token_positions : String → ℕ
  rolls : List (ℕ × ℕ)
  turn : ℕ

namespace GameSim

/-- `_get_tokens`.  For `n_tokens` outside `{1, 2}` the Python `match` falls
through and returns `None`, which every caller would crash on; `[]` marks
that unreachable case. -/
def get_tokens (gs : GameSim) (player : ℕ) : List String :=
  match gs.n_tokens with
  | 1 => if player = 1 then ["A"] else ["X"]
  | 2 => if player = 1 then ["A", "B"] else ["X", "Y"]
  | _ => []

/-- `_is_out`: `self.token_positions[token] > 0`. -/
def is_out (gs : GameSim) (token : String) : Bool :=
  decide (0 < gs.token_positions token)

/-- `_is_taken`: some listed token occupies `pos`, the final field
excepted. -/
def is_taken (gs : GameSim) (tokens : List String) (pos : ℕ) : Bool :=
  tokens.any fun token => decide (gs.token_positions token = pos ∧ pos ≠ gs.n_fields)

/-- `self.rolls[self.turn][player]`; the list access is only reached under
the `turn > len(rolls) - 1` cutoff guard, and `player` is 0 or 1. -/
def roll_for (gs : GameSim) (player : ℕ) : ℕ :=
  let p := gs.rolls.getD gs.turn (0, 0)
  if player = 1 then p.2 else p.1

/-- `get_possible_moves`: per token, an advance candidate and an
entering candidate, else the null move for every token. -/
def get_possible_moves (gs : GameSim) (player : ℕ) : List Move :=
  let roll := gs.roll_for player
  let tokens := gs.get_tokens player
  let moves := tokens.flatMap fun token =>
    -- `not self._is_taken(tokens, destination) and destination <=
    --  self.n_fields and self._is_out(token)`
    (if gs.is_taken tokens (gs.token_positions token + roll) = false
        ∧ gs.token_positions token + roll ≤ gs.n_fields
        ∧ gs.is_out token = true
      then [(token, gs.token_positions token + roll)] else []) ++
    -- `roll == 6 and self.token_positions[token] == 0 and
    --  not self._is_taken(tokens, 1)`
    (if roll = 6 ∧ gs.token_positions token = 0 ∧ gs.is_taken tokens 1 = false
      then [(token, 1)] else [])
  if moves = [] then tokens.map (fun token => (token, gs.token_positions token))
  else moves

/-- `get_new_state`: move the named token, send any opponent token sitting on
the destination home (unless the destination is the final field), and advance
the turn counter only after the `player == 1` move. -/
def get_new_state (gs : GameSim) (move : Move) (player : ℕ) : GameSim :=
  let moved : String → ℕ := fun t => if t = move.1 then move.2 else gs.token_positions t
  { n_fields := gs.n_fields
    n_tokens := gs.n_tokens
    token_positions := fun t =>
      if t ∈ gs.get_tokens (1 - player) ∧ moved t = move.2 ∧ move.2 ≠ gs.n_fields
      then 0 else moved t
    rolls := gs.rolls
    turn := if player = 1 then gs.turn + 1 else gs.turn }

/-- `is_terminal`.  Source lines 121–128: *both* `p1_terminal` and
`p2_terminal` are computed from `self._get_tokens(0)`. -/
def is_terminal (gs : GameSim) : Bool × Option ℕ :=
  let p1_terminal := (gs.get_tokens 0).all fun token =>
    decide (gs.token_positions token = gs.n_fields)
  let p2_terminal := (gs.get_tokens 0).all fun token =>
    decide (gs.token_positions token = gs.n_fields)
  (p1_terminal || p2_terminal,
   if p1_terminal then some 0 else if p2_terminal then some 1 else none)

/-- `score`.  `-100 if winner else 100`: `winner` is `None`, `0` or `1` and
only `1` is truthy in Python.  The non-terminal branch is
`sum(player-0 positions) - sum(player-1 positions)`. -/
def score (gs : GameSim) : ℤ :=
  if gs.is_terminal.1 = true then
    (if gs.is_terminal.2 = some 1 then -100 else 100)
  else
    ((gs.get_tokens 0).map fun t => (gs.token_positions t : ℤ)).sum -
    ((gs.get_tokens 1).map fun t => (gs.token_positions t : ℤ)).sum

end GameSim

/-! `minimax(game_state, maximizing_player, alpha, beta)`.  The `for move in
possible_moves` loops with `break` are modelled as the recursions `maxLoop`
and `minLoop` over the move list, threading `best_score`, `best_move`,
`alpha` and `beta` exactly as the source does. `maxLoop` is reached only with
`player = 1` and `minLoop` only with `player = 0`, so the `get_new_state`
player argument is written as the corresponding literal.  The loops carry the
proof `hlt` (available from the cutoff guard) used for termination.  The
cutoff test `game_state.turn > len(game_state.rolls) - 1` over Python ints is
`rolls.length ≤ turn`. -/

mutual

def minimax (gs : GameSim) (maximizing : Bool) (alpha beta : MMValue) :
    MMValue × Option Move :=
  if h : gs.is_terminal.1 = true ∨ gs.rolls.length ≤ gs.turn then
    (toValue gs.score, none)
  else
    if maximizing then
      maxLoop gs (gs.get_possible_moves 1) alpha beta ⊥ none
        (Nat.lt_of_not_le fun hb => h (Or.inr hb))
    else
      minLoop gs (gs.get_possible_moves 0) alpha beta ⊤ none
        (Nat.lt_of_not_le fun hb => h (Or.inr hb))
termination_by
  (2 * (gs.rolls.length - gs.turn) + (if maximizing then 0 else 1), 1, 0)
decreasing_by
  all_goals (simp_wf; simp only [Prod.lex_def, GameSim.get_new_state]; simp_all; try omega)

def maxLoop (gs : GameSim) (moves : List Move) (alpha beta best : MMValue)
    (bestMove : Option Move) (hlt : gs.turn < gs.rolls.length) :
    MMValue × Option Move :=
  match moves with
  | [] => (best, bestMove)
  | move :: rest =>
    let s := (minimax (gs.get_new_state move 1) false alpha beta).1
    -- `if score > best_score: best_score, best_move = score, move`
    let best2 := if best < s then s else best
    let bestMove2 := if best < s then some move else bestMove
    -- `if best_score >= beta: break`
    if beta ≤ best2 then (best2, bestMove2)
    -- `alpha = max(alpha, best_score)`
    else maxLoop gs rest (max alpha best2) beta best2 bestMove2 hlt
termination_by (2 * (gs.rolls.length - gs.turn), 0, moves.length)
decreasing_by
  all_goals (simp_wf; simp only [Prod.lex_def, GameSim.get_new_state]; simp_all; try omega)

def minLoop (gs : GameSim) (moves : List Move) (alpha beta best : MMValue)
    (bestMove : Option Move) (hlt : gs.turn < gs.rolls.length) :
    MMValue × Option Move :=
  match moves with
  | [] => (best, bestMove)
  | move :: rest =>
    let s := (minimax (gs.get_new_state move 0) true alpha beta).1
    -- `if score < best_score: best_score, best_move = score, move`
    let best2 := if s < best then s else best
    let bestMove2 := if s < best then some move else bestMove
    -- `if best_score <= beta: break`  (sic: `beta`, not `alpha`)
    if best2 ≤ beta then (best2, bestMove2)
    -- `beta = min(alpha, best_score)`  (sic: `alpha`, not `beta`)
    else minLoop gs rest alpha (min alpha best2) best2 bestMove2 hlt
termination_by (2 * (gs.rolls.length - gs.turn) + 1, 0, moves.length)
decreasing_by
  all_goals (simp_wf; simp only [Prod.lex_def, GameSim.get_new_state]; simp_all; try omega)

end

/-- Modelled from the spec: the pruning-disabled full minimax reference
("differential test against a pruning-disabled reference implementation").
Every child is evaluated; the first strictly better move is kept, exactly as
the source loops do, but with no `break` and no `alpha`/`beta`. -/
def minimaxFull (gs : GameSim) (maximizing : Bool) : MMValue × Option Move :=
  if h : gs.is_terminal.1 = true ∨ gs.rolls.length ≤ gs.turn then
    (toValue gs.score, none)
  else
    let player : ℕ := if maximizing then 1 else 0
    let moves := gs.get_possible_moves player
    let scored := moves.attach.map fun m =>
      ((minimaxFull (gs.get_new_state m.1 player) (!maximizing)).1, m.1)
    if maximizing then
      scored.foldl (fun acc p => if acc.1 < p.1 then (p.1, some p.2) else acc)
        ((⊥ : MMValue), (none : Option Move))
    else
      scored.foldl (fun acc p => if p.1 < acc.1 then (p.1, some p.2) else acc)
        ((⊤ : MMValue), (none : Option Move))
termination_by 2 * (gs.rolls.length - gs.turn) + (if maximizing then 0 else 1)
decreasing_by
  have hlt : gs.turn < gs.rolls.length := Nat.lt_of_not_le fun hb => h (Or.inr hb)
  cases maximizing <;> simp [GameSim.get_new_state] <;> omega

/-! ### Concrete `GameSim` states used to settle the minimax claims -/

/-- Two tokens per side, 10 fields, `X` on 3, `Y` at home, `A` and `B`
finished; round rolls `(6, 1)`.  The minimising side can advance `X` to 9 or
enter `Y` on 1; the maximising side has only null moves. -/
def pruning_positions : String → ℕ := fun t =>
  if t = "X" then 3 else if t = "Y" then 0 else 10

def pruning_state : GameSim := ⟨10, 2, pruning_positions, [(6, 1)], 0⟩

/-- One token per side, 10 fields: the maximising side's token `A` is on the
final field 10, the opponent's `X` is on 3. -/
def finished_adversary_positions : String → ℕ := fun t =>
  if t = "A" then 10 else if t = "X" then 3 else 0

def finished_adversary_state : GameSim := ⟨10, 1, finished_adversary_positions, [(1, 1)], 0⟩

/-- One token per side, 10 fields: `A` on 4, `X` on 3 — no side finished. -/
def ahead_adversary_positions : String → ℕ := fun t =>
  if t = "A" then 4 else if t = "X" then 3 else 0

def ahead_adversary_state : GameSim := ⟨10, 1, ahead_adversary_positions, [(1, 1)], 0⟩

/-! ## Move legality checker (master.py)

A player's token dictionary `{token: {"in_play": bool, "position": int}}` is
modelled as an ordered association list (Python dicts iterate in insertion
order), and a parsed move `{token: int}` likewise. -/

structure TokState where
  in_play : Bool
  position : ℕ
deriving DecidableEq

abbrev Tokens := List (String × TokState)

abbrev MoveDict := List (String × ℕ)

namespace LudoGameMaster

/-- `tokens[token]` lookup.  Python raises `KeyError` for an absent key; the
checker is only invoked with the keys of the player's own token dictionary,
so a default suffices for the unreachable case. -/
def get_token (tokens : Tokens) (t : String) : TokState :=
  ((tokens.find? fun p => p.1 == t).map Prod.snd).getD ⟨false, 0⟩

/-- `_check_token_moved`: `{token: tokens[token]["position"] != position for
token, position in move.items()}`. -/
def check_token_moved (tokens : Tokens) (move : MoveDict) : List (String × Bool) :=
  move.map fun p => (p.1, decide ((get_token tokens p.1).position ≠ p.2))

/-- `_check_both_tokens_moved`.  For `n_tokens` outside `{1, 2}` the Python
`match` falls through and returns `None`, which the caller's `if` treats as
falsy. -/
def check_both_tokens_moved (tokens : Tokens) (n_tokens : ℕ) (move : MoveDict) : Bool :=
  match n_tokens with
  | 1 => false
  | 2 => (check_token_moved tokens move).all fun p => p.2
  | _ => false

/-- `_get_moved_token`: the first key of the move dict whose position
changed. -/
def get_moved_token (tokens : Tokens) (move : MoveDict) : Option String :=
  ((check_token_moved tokens move).find? fun p => p.2).map Prod.fst

/-- `_is_taken` (master.py): some token of this player occupies `pos`, the
final field (`self.game.n_fields`) excepted. -/
def is_taken (tokens : Tokens) (pos n_fields : ℕ) : Bool :=
  tokens.any fun p => decide (p.2.position = pos ∧ pos ≠ n_fields)

/-- Result of `_check_move`: `True`, or `False` with `self.error` set to the
given `(kind, token)` pair, or the implicit `return None` fall-through. -/
inductive CheckOut where
  | accepted : CheckOut
  | rejected : String × Option String → CheckOut
  | noneReturn : CheckOut
deriving DecidableEq

/-- The `for token in move.keys():` loop of `_check_move`.  Every `continue`
appends `True` to `check_list`, so completing the loop always reaches
`if all(check_list): return True`; the implicit `None` fall-through is
unreachable. -/
def check_move_loop (tokens : Tokens) (moved : Option String) (roll n_fields : ℕ) :
    MoveDict → CheckOut
  | [] => .accepted
  | (token, target) :: rest =>
    let current := (get_token tokens token).position
    match moved with
    | none =>
      if (get_token tokens token).in_play = false then
        -- `if roll != 6: continue` else `self.error = ("not_moved_to_board", token)`
        if roll ≠ 6 then check_move_loop tokens moved roll n_fields rest
        else .rejected ("not_moved_to_board", some token)
      else
        -- `if roll + current_position > n_fields: continue` else `not_moved`
        if n_fields < roll + current then check_move_loop tokens moved roll n_fields rest
        else .rejected ("not_moved", some token)
    | some mt =>
      if (get_token tokens token).in_play = false then
        if token = mt ∧ roll = 6 ∧ target = 1 ∧ is_taken tokens 1 n_fields = false then
          check_move_loop tokens moved roll n_fields rest
        else if token ≠ mt then check_move_loop tokens moved roll n_fields rest
        else .rejected ("incorrect_move", some token)
      else
        if token = mt ∧ current + roll = target ∧ is_taken tokens target n_fields = false then
          check_move_loop tokens moved roll n_fields rest
        else if token ≠ mt then check_move_loop tokens moved roll n_fields rest
        else .rejected ("incorrect_move", some token)

/-- `_check_move`. -/
def check_move (tokens : Tokens) (n_tokens : ℕ) (move : MoveDict) (roll n_fields : ℕ) :
    CheckOut :=
  if check_both_tokens_moved tokens n_tokens move = true then
    .rejected ("simultaneous_move", none)
  else
    check_move_loop tokens (get_moved_token tokens move) roll n_fields move

end LudoGameMaster

/-! ## Move parser (player.py)

`parse_text(text, player)` searches `text` for
`rf"MY MOVE: {tok} -> (\d+)"` (one token) or
`rf"MY MOVE: {tok0} -> (\d+) ; {tok1} -> (\d+)"` (two tokens).  `re.search`
tries the pattern at each start position, leftmost first, and `\d+` is a
greedy digit run (greedy matching is complete here because the characters
after each `(\d+)` in the pattern are non-digits).  The crucial behaviour:
`token_dict` is built from `matches.group(...)` *before* the
`return token_dict if matches else False` line, so when there is no match the
function raises `AttributeError` (`NoneType` has no attribute `group`) and
the `False` branch is unreachable. -/

def match_literal : List Char → List Char → Option (List Char)
  | [], cs => some cs
  | _ :: _, [] => none
  | l :: ls, c :: cs => if c = l then match_literal ls cs else none

/-- `int(...)` on a digit run. -/
def digits_to_nat (ds : List Char) : ℕ :=
  ds.foldl (fun n c => 10 * n + (c.toNat - 48)) 0

/-- One capture group `(\d+)`: a nonempty greedy digit run. -/
def match_group_digits (cs : List Char) : Option (ℕ × List Char) :=
  let ds := cs.takeWhile Char.isDigit
  if ds.isEmpty then none
  else some (digits_to_nat ds, cs.dropWhile Char.isDigit)

/-- `re.search`: try the matcher at every start position, leftmost first. -/
def search_from (f : List Char → Option α) : List Char → Option α
  | [] => f []
  | c :: cs =>
    match f (c :: cs) with
    | some v => some v
    | none => search_from f cs

/-- `rf"MY MOVE: {tok} -> (\d+)"` anchored at the current position. -/
def match_mono_at (tok : String) (cs : List Char) : Option ℕ :=
  match match_literal ("MY MOVE: " ++ tok ++ " -> ").data cs with
  | none => none
  | some rest => (match_group_digits rest).map Prod.fst

/-- `rf"MY MOVE: {tok0} -> (\d+) ; {tok1} -> (\d+)"` anchored at the current
position. -/
def match_duo_at (tok0 tok1 : String) (cs : List Char) : Option (ℕ × ℕ) :=
  match match_literal ("MY MOVE: " ++ tok0 ++ " -> ").data cs with
  | none => none
  | some r1 =>
    match match_group_digits r1 with
    | none => none
    | some (v1, r2) =>
      match match_literal (" ; " ++ tok1 ++ " -> ").data r2 with
      | none => none
      | some r3 => (match_group_digits r3).map fun p => (v1, p.1)

/-- `parse_text(text, player)` with the player's token names and `n_tokens`
passed explicitly.  On a match it returns the token dict; on no match it
raises `AttributeError`.  For `n_tokens` outside `{1, 2}` the Python `match`
binds nothing and the final `return` raises `NameError`. -/
def parse_text (text : String) (tokens : List String) (n_tokens : ℕ) :
    Except String MoveDict :=
  match n_tokens with
  | 1 =>
    match search_from (match_mono_at (tokens.getD 0 "")) text.data with
    | some v => .ok [(tokens.getD 0 "", v)]
    | none => .error "AttributeError"
  | 2 =>
    match search_from (match_duo_at (tokens.getD 0 "") (tokens.getD 1 "")) text.data with
    | some (v1, v2) => .ok [(tokens.getD 0 "", v1), (tokens.getD 1 "", v2)]
    | none => .error "AttributeError"
  | _ => .error "NameError"

/-! ## Programmatic player's `_make_move` (player.py) -/

/-- The parameters of `GameSim.__init__` after `self` (minimax.py lines
13–20). -/
def gameSim_init_params : List String :=
  ["n_fields", "n_tokens", "token_positions", "rolls", "turn"]

/-- The positional arguments of the call
`GameSim(n_fields, token_positions, rolls, turn_number)` in
`ProgrammaticPlayer._make_move` (player.py line 231). -/
def make_move_call_args : List String :=
  ["n_fields", "token_positions", "rolls", "turn_number"]

/-- `ProgrammaticPlayer._make_move`.  Python binds positional arguments by
count: four arguments against five required parameters raise `TypeError` at
the call site, before any constructor or search code runs.  In the
(unreachable) matching-arity branch the body would run
`_, move = minimax(game, True)` and return `move`. -/
def make_move (token_positions : String → ℕ) (rolls : List (ℕ × ℕ))
    (n_fields turn_number : ℕ) (n_tokens : ℕ) : Except String (Option Move) :=
  if make_move_call_args.length = gameSim_init_params.length then
    .ok (minimax
      { n_fields := n_fields, n_tokens := n_tokens, token_positions := token_positions,
        rolls := rolls, turn := turn_number } true ⊥ ⊤).2
  else .error "TypeError"

/-! ## Game attributes and the turn engine's retry loop (game.py, master.py) -/

/-- The attribute names assigned by `Game.__init__` (game.py lines 49–70). -/
def game_init_attributes : List String :=
  ["n_fields", "current_state", "initial_prompt", "context", "reprompt_attempts",
   "total_retry_count", "error_count", "is_aborted", "n_tokens", "turn_limit",
   "turn", "rolls", "player_1", "player_2"]

/-- An augmented assignment `obj.name += 1` first reads `obj.name`: it raises
`AttributeError` when the attribute was never initialised. -/
def augmented_assign (attrs : List String) (name : String) : Except String Unit :=
  if name ∈ attrs then .ok () else .error "AttributeError"

/-- `LudoGameMaster._get_response` after the player produced `response_text`:
the Player-1 counter updates and the parse.  The `if move:` else-branch
(`requests_violated`, "parsing failed") is unreachable because `parse_text`
raises instead of returning `False`. -/
def get_response (attrs : List String) (player : String) (response_text : String)
    (token_names : List String) (n_tokens : ℕ) : Except String MoveDict := do
  -- `if player == "Player 1": self.game.requests += 1`
  if player = "Player 1" then augmented_assign attrs "requests" else pure ()
  let move ← parse_text response_text token_names n_tokens
  -- `if move:` … `if player == "Player 1": self.game.requests_parsed += 1`
  if player = "Player 1" then augmented_assign attrs "requests_parsed" else pure ()
  pure move

/-- The `while self.game.reprompt_attempts < self.attempt_limit:` loop of
`LudoGameMaster._does_game_proceed`, for one side on one turn.  `replies`
gives the side's raw reply for each attempt; the board does not change across
failed attempts.  Returns the `can_proceed` flag: `True` on an accepted move,
`False` when the attempt budget is exhausted (or on a failure with
reprompting disabled). -/
def does_game_proceed (attrs : List String) (player : String) (tokens : Tokens)
    (token_names : List String) (n_tokens roll n_fields : ℕ)
    (replies : ℕ → String) (reprompting : Bool) (attempt_limit attempts : ℕ) :
    Except String Bool :=
  if h : attempts < attempt_limit then
    match get_response attrs player (replies attempts) token_names n_tokens with
    | .error e => .error e
    | .ok move =>
      match LudoGameMaster.check_move tokens n_tokens move roll n_fields with
      | .accepted => .ok true
      | _ =>
        -- `self._reprompt_player(...)` increments `reprompt_attempts` via
        -- `Game.reprompt`; without reprompting the loop breaks.
        if reprompting then
          does_game_proceed attrs player tokens token_names n_tokens roll n_fields
            replies reprompting attempt_limit (attempts + 1)
        else .ok false
  else .ok false
termination_by attempt_limit - attempts
decreasing_by omega

/-! ### The Bellman characterisation of the solver -/

lemma step_eq_min (c : Prop) [Decidable c] (v acc : ℕ∞) :
    step c v acc = if c then min acc v else acc := by
  unfold step
  rcases lt_or_ge v acc with h | h
  · simp [h, min_eq_right h.le]
  · simp [not_lt.2 h, min_eq_left h]

lemma foldr_min_append (l₁ l₂ : List ℕ∞) :
    (l₁ ++ l₂).foldr min ⊤ = min (l₁.foldr min ⊤) (l₂.foldr min ⊤) := by
  induction l₁ with
  | nil => simp
  | cons a l ih => simp [ih, min_assoc]

lemma foldr_min_add_one (l : List ℕ∞) :
    (l.map (· + 1)).foldr min ⊤ = 1 + l.foldr min ⊤ := by
  induction l with
  | nil => simp
  | cons a l ih =>
    simp only [List.map_cons, List.foldr_cons, ih, add_comm a 1]
    exact min_add_add_left 1 a (List.foldr min ⊤ l)

lemma step_chain_eq (c₁ c₂ : Prop) [Decidable c₁] [Decidable c₂] (v₁ v₂ : ℕ∞) :
    step c₂ v₂ (step c₁ v₁ ⊤)
      = ((if c₁ then [v₁] else []) ++ (if c₂ then [v₂] else [])).foldr min ⊤ := by
  simp only [step_eq_min, foldr_min_append]
  split_ifs <;> simp [min_comm]

lemma step_chain_eq4 (c₁ c₂ c₃ c₄ : Prop)
    [Decidable c₁] [Decidable c₂] [Decidable c₃] [Decidable c₄] (v₁ v₂ v₃ v₄ : ℕ∞) :
    step c₄ v₄ (step c₃ v₃ (step c₂ v₂ (step c₁ v₁ ⊤)))
      = ((if c₁ then [v₁] else []) ++ (if c₂ then [v₂] else []) ++
          (if c₃ then [v₃] else []) ++ (if c₄ then [v₄] else [])).foldr min ⊤ := by
  simp only [step_eq_min, foldr_min_append]
  split_ifs <;>
    simp [min_comm, min_assoc, min_left_comm]

/-- Bellman equation for the two-token solver: at a non-terminal,
non-exhausted state its value is `1 +` the minimum of the values of the child
states it explores. -/
lemma find_multitoken_minimum_bellman (n_fields : ℕ) (rolls : List ℕ) (X Y index : ℕ)
    (h0 : ¬(X = n_fields ∧ Y = n_fields)) (h1 : index < rolls.length) :
    find_multitoken_minimum n_fields rolls X Y index
      = 1 + ((multitoken_children n_fields (rolls.getD index 0) X Y).map
          (fun p => find_multitoken_minimum n_fields rolls p.1 p.2 (index + 1))).foldr min ⊤ := by
  rw [← foldr_min_add_one, List.map_map]
  conv_lhs => rw [find_multitoken_minimum]
  rw [if_neg h0, dif_neg (not_le.2 h1)]
  rw [step_chain_eq4]
  rw [multitoken_children]
  simp only [List.map_append, Function.comp, apply_ite (List.map _), List.map_cons,
    List.map_nil]

/-- Bellman equation for the single-token solver: its children are states of
the two-token solver with the phantom second token at home (`Y = 0`). -/
lemma find_monotoken_minimum_bellman (n_fields : ℕ) (rolls : List ℕ) (X index : ℕ)
    (h0 : X ≠ n_fields) (h1 : index < rolls.length) :
    find_monotoken_minimum n_fields rolls X index
      = 1 + ((monotoken_children n_fields (rolls.getD index 0) X).map
          (fun p => find_multitoken_minimum n_fields rolls p.1 p.2 (index + 1))).foldr min ⊤ := by
  rw [← foldr_min_add_one, List.map_map]
  rw [find_monotoken_minimum]
  rw [if_neg h0, if_neg (not_le.2 h1)]
  rw [step_chain_eq]
  rw [monotoken_children]
  simp only [List.map_append, Function.comp, apply_ite (List.map _), List.map_cons,
    List.map_nil]

lemma find_multitoken_minimum_finished (n_fields : ℕ) (rolls : List ℕ) (index : ℕ) :
    find_multitoken_minimum n_fields rolls n_fields n_fields index = 0 := by
  rw [find_multitoken_minimum]
  simp

lemma find_multitoken_minimum_exhausted (n_fields : ℕ) (rolls : List ℕ) (X Y index : ℕ)
    (h1 : rolls.length ≤ index) (h0 : ¬(X = n_fields ∧ Y = n_fields)) :
    find_multitoken_minimum n_fields rolls X Y index = ⊤ := by
  rw [find_multitoken_minimum, if_neg h0, dif_pos h1]

lemma find_monotoken_minimum_finished (n_fields : ℕ) (rolls : List ℕ) (index : ℕ) :
    find_monotoken_minimum n_fields rolls n_fields index = 0 := by
  rw [find_monotoken_minimum]
  simp

lemma find_monotoken_minimum_exhausted (n_fields : ℕ) (rolls : List ℕ) (X index : ℕ)
    (h1 : rolls.length ≤ index) (h0 : X ≠ n_fields) :
    find_monotoken_minimum n_fields rolls X index = ⊤ := by
  rw [find_monotoken_minimum, if_neg h0, if_pos h1]

/-! ### All-six roll sequences on a 23-field board are unsolvable

A token's position stays in `{0, 1, 7, 13, 19}` forever and never
reaches 23. -/

lemma sixes_reachable_not_23 {z : ℕ} (h : sixes_reachable z) : z ≠ 23 := by
  rcases h with h | h | h | h | h <;> omega

lemma sixes_reachable_advance {z : ℕ} (h : sixes_reachable z) (hz : z ≠ 0) :
    sixes_reachable (if z + 6 ≤ 23 then z + 6 else z) := by
  rcases h with h | h | h | h | h <;> subst h <;> first
    | exact absurd rfl hz
    | norm_num [sixes_reachable]

lemma sixes_reachable_one : sixes_reachable 1 := by
  simp [sixes_reachable]

lemma multitoken_children_sixes {X Y : ℕ} (hX : sixes_reachable X)
    (hY : sixes_reachable Y) {p : ℕ × ℕ} (hp : p ∈ multitoken_children 23 6 X Y) :
    sixes_reachable p.1 ∧ sixes_reachable p.2 := by
  simp only [multitoken_children, List.mem_append, List.mem_ite_nil_right,
    List.mem_singleton] at hp
  rcases hp with ((⟨⟨hne, -⟩, h⟩ | ⟨⟨hne, -⟩, h⟩) | ⟨-, h⟩) | ⟨-, h⟩ <;> subst h
  · exact ⟨sixes_reachable_advance hX hne, hY⟩
  · exact ⟨hX, sixes_reachable_advance hY hne⟩
  · exact ⟨sixes_reachable_one, hY⟩
  · exact ⟨hX, sixes_reachable_one⟩

lemma foldr_min_top_of_all_top (l : List ℕ∞) (h : ∀ x ∈ l, x = ⊤) :
    l.foldr min ⊤ = ⊤ := by
  induction l with
  | nil => rfl
  | cons a l ih =>
    simp only [List.foldr_cons, h a (List.mem_cons_self a l),
      ih fun x hx => h x (List.mem_cons_of_mem a hx), min_self]

lemma replicate_getD (k index a d : ℕ) (h : index < k) :
    (List.replicate k a).getD index d = a := by
  rw [List.getD_eq_getElem _ _ (by simpa using h)]
  exact List.getElem_replicate ..

/-- With every roll a 6 and 23 fields, the two-token solver's value is `⊤`
from any state whose token positions are six-reachable. -/
lemma find_multitoken_minimum_sixes (k : ℕ) :
    ∀ fuel index X Y, k ≤ index + fuel → sixes_reachable X → sixes_reachable Y →
      find_multitoken_minimum 23 (List.replicate k 6) X Y index = ⊤ := by
  intro fuel
  induction fuel with
  | zero =>
    intro index X Y hk hX hY
    exact find_multitoken_minimum_exhausted _ _ _ _ _ (by simpa using hk)
      (fun h => sixes_reachable_not_23 hX h.1)
  | succ fuel ih =>
    intro index X Y hk hX hY
    rcases le_or_lt k index with hle | hlt
    · exact find_multitoken_minimum_exhausted _ _ _ _ _ (by simpa using hle)
        (fun h => sixes_reachable_not_23 hX h.1)
    · rw [find_multitoken_minimum_bellman _ _ _ _ _
        (fun h => sixes_reachable_not_23 hX h.1) (by simpa using hlt)]
      rw [replicate_getD _ _ _ _ hlt]
      rw [foldr_min_top_of_all_top]
      · rfl
      · intro x hx
        rcases List.mem_map.1 hx with ⟨p, hp, rfl⟩
        obtain ⟨h1, h2⟩ := multitoken_children_sixes hX hY hp
        exact ih (index + 1) p.1 p.2 (by omega) h1 h2

/-- The single-token solver returns `⊤` on a 23-field board for an all-six
roll sequence of any positive length, started from home. -/
lemma find_monotoken_minimum_sixes (k : ℕ) (hk : 0 < k) :
    find_monotoken_minimum 23 (List.replicate k 6) 0 0 = ⊤ := by
  rw [find_monotoken_minimum_bellman _ _ _ _ (by omega) (by simpa using hk)]
  rw [replicate_getD _ _ _ _ hk]
  rw [foldr_min_top_of_all_top]
  · rfl
  · intro x hx
    rcases List.mem_map.1 hx with ⟨p, hp, rfl⟩
    simp only [monotoken_children, List.mem_append, List.mem_ite_nil_right,
      List.mem_singleton] at hp
    rcases hp with ⟨⟨h, -⟩, -⟩ | ⟨-, h⟩
    · exact absurd rfl h
    · subst h
      exact find_multitoken_minimum_sixes k k 1 1 0 (by omega)
        sixes_reachable_one (Or.inl rfl)

deriving instance DecidableEq for Except

/-! ### Lemmas about the engine's response handling -/

/-- For Player 1, `_get_response` always fails: `self.game.requests += 1`
reads an attribute `Game.__init__` never set. -/
lemma get_response_player1 (attrs : List String) (h : "requests" ∉ attrs)
    (text : String) (names : List String) (ntk : ℕ) :
    get_response attrs "Player 1" text names ntk = .error "AttributeError" := by
  simp [get_response, augmented_assign, h, Except.bind]
  rfl

/-! ### Lemmas about the legality checker -/

/-- The per-token loop of `_check_move` only ever reports
`not_moved_to_board`, `not_moved` or `incorrect_move`, never
`simultaneous_move`. -/
lemma check_move_loop_ne_simultaneous (tokens : Tokens) (moved : Option String)
    (roll n_fields : ℕ) (move : MoveDict) (t : Option String) :
    LudoGameMaster.check_move_loop tokens moved roll n_fields move
      ≠ .rejected ("simultaneous_move", t) := by
  induction move with
  | nil => simp [LudoGameMaster.check_move_loop]
  | cons p rest ih =>
    obtain ⟨token, target⟩ := p
    cases moved with
    | none =>
      simp only [LudoGameMaster.check_move_loop]
      split_ifs <;> simp_all
    | some mt =>
      simp only [LudoGameMaster.check_move_loop]
      split_ifs <;> simp_all

/-! ## Claims -/

/-- C1 (amended): for every board size, dice sequence and solver state, the
sequence oracle's value is 0 when all tracked tokens are at `n_fields`, `⊤`
(infinity) when the roll index is at or past the end of the sequence, and
otherwise 1 plus the minimum over the child states the code actually explores
of the child's value — for the two-token solver: advance an in-play token by
the roll (staying in place on overshoot) when the destination does not equal
the other token's position unless it is `n_fields`, and enter a token on a 6
when the other token is not on field 1; for the single-token solver: only an
advance landing exactly on `n_fields` and an entry on a 6 are explored, and
both children are evaluated by the two-token solver with a phantom second
token at home.  In particular, for `n_fields = 23`, a single token and an
all-six roll sequence, `find_monotoken_minimum` returns infinity. -/
theorem claim_C1 (n_fields : ℕ) (rolls : List ℕ) (X Y index : ℕ) :
    (find_multitoken_minimum n_fields rolls n_fields n_fields index = 0)
    ∧ (rolls.length ≤ index → ¬(X = n_fields ∧ Y = n_fields) →
        find_multitoken_minimum n_fields rolls X Y index = ⊤)
    ∧ (index < rolls.length → ¬(X = n_fields ∧ Y = n_fields) →
        find_multitoken_minimum n_fields rolls X Y index
          = 1 + ((multitoken_children n_fields (rolls.getD index 0) X Y).map
              fun p => find_multitoken_minimum n_fields rolls p.1 p.2 (index + 1)).foldr min ⊤)
    ∧ (find_monotoken_minimum n_fields rolls n_fields index = 0)
    ∧ (rolls.length ≤ index → X ≠ n_fields →
        find_monotoken_minimum n_fields rolls X index = ⊤)
    ∧ (index < rolls.length → X ≠ n_fields →
        find_monotoken_minimum n_fields rolls X index
          = 1 + ((monotoken_children n_fields (rolls.getD index 0) X).map
              fun p => find_multitoken_minimum n_fields rolls p.1 p.2 (index + 1)).foldr min ⊤)
    ∧ find_monotoken_minimum 23 (List.replicate 40 6) 0 0 = ⊤ :=
  ⟨find_multitoken_minimum_finished n_fields rolls index,
   fun h1 h0 => find_multitoken_minimum_exhausted n_fields rolls X Y index h1 h0,
   fun h1 h0 => find_multitoken_minimum_bellman n_fields rolls X Y index h0 h1,
   find_monotoken_minimum_finished n_fields rolls index,
   fun h1 h0 => find_monotoken_minimum_exhausted n_fields rolls X index h1 h0,
   fun h1 h0 => find_monotoken_minimum_bellman n_fields rolls X index h0 h1,
   find_monotoken_minimum_sixes 40 (by norm_num)⟩

/-- C1, counterexample to the claim as stated: on a 23-field board with 40
rolls of 6 — "long enough to reach field 23" by any measure — the
single-token solver returns infinity, not a finite count bounded by the
number of rolls.  (From field 1 a token only ever visits 1, 7, 13, 19 when
every roll is a 6, and the solver moreover requires a phantom second token to
finish.) -/
theorem claim_C1_counterexample :
    find_monotoken_minimum 23 (List.replicate 40 6) 0 0 = ⊤ :=
  find_monotoken_minimum_sixes 40 (by norm_num)

/-- C1, witness: the hypothesised conjuncts of `claim_C1` instantiated at
concrete states. -/
theorem claim_C1_witness :
    (find_multitoken_minimum 5 [3] 1 0 0
      = 1 + ((multitoken_children 5 3 1 0).map
          fun p => find_multitoken_minimum 5 [3] p.1 p.2 1).foldr min ⊤)
    ∧ find_multitoken_minimum 5 [3] 4 0 1 = ⊤
    ∧ find_monotoken_minimum 5 [3] 2 1 = ⊤
    ∧ (find_monotoken_minimum 5 [6] 0 0
        = 1 + ((monotoken_children 5 6 0).map
            fun p => find_multitoken_minimum 5 [6] p.1 p.2 1).foldr min ⊤) :=
  ⟨(claim_C1 5 [3] 1 0 0).2.2.1 (by decide) (by decide),
   (claim_C1 5 [3] 4 0 1).2.1 (by decide) (by decide),
   (claim_C1 5 [3] 2 1 1).2.2.2.2.1 (by decide) (by decide),
   (claim_C1 5 [6] 0 0 0).2.2.2.2.2.1 (by decide) (by decide)⟩

/-- C2: the claim fails on the code.  At `pruning_state` (minimising side to
move, default bounds `alpha = -∞`, `beta = +∞`) the pruned search returns
value −11 with move `(X, 9)`: the minimising loop's `if best_score <= beta:
break` (with `beta`, which stays `+∞`, in place of `alpha`) stops after the
first move, while the pruning-disabled full search returns −16 with move
`(Y, 1)`.  The two values differ, refuting the claimed alpha-beta/unpruned
equality; the returned move does lie in `get_possible_moves`. -/
theorem claim_C2 :
    minimax pruning_state false ⊥ ⊤ = (toValue (-11), some ("X", 9))
    ∧ minimaxFull pruning_state false = (toValue (-16), some ("Y", 1))
    ∧ toValue (-11) ≠ toValue (-16)
    ∧ ("X", 9) ∈ pruning_state.get_possible_moves 0 := by
  refine ⟨?_, ?_, by decide, by decide⟩
  · simp [minimax, minLoop, maxLoop, pruning_state, pruning_positions,
      GameSim.is_terminal, GameSim.get_possible_moves, GameSim.get_new_state,
      GameSim.get_tokens, GameSim.score, GameSim.is_taken, GameSim.is_out,
      GameSim.roll_for, toValue]
  · simp [minimaxFull, pruning_state, pruning_positions,
      GameSim.is_terminal, GameSim.get_possible_moves, GameSim.get_new_state,
      GameSim.get_tokens, GameSim.score, GameSim.is_taken, GameSim.is_out,
      GameSim.roll_for, toValue, List.attach, List.attachWith]
    decide

/-- C5: the claim fails on the code.  In `finished_adversary_state` every
token of the second side (`A`) sits on the final field 10 while the first
side's `X` is on 3, yet `is_terminal` returns `(False, None)` rather than
`(True, 1)`: source lines 121–128 compute `p2_terminal` from
`self._get_tokens(0)` — the first side's tokens — instead of
`self._get_tokens(1)`. -/
theorem claim_C5 :
    finished_adversary_state.is_terminal = (false, none)
    ∧ ((finished_adversary_state.get_tokens 1).all fun t =>
        decide (finished_adversary_state.token_positions t
          = finished_adversary_state.n_fields)) = true
    ∧ ((finished_adversary_state.get_tokens 0).all fun t =>
        decide (finished_adversary_state.token_positions t
          = finished_adversary_state.n_fields)) = false := by
  decide

/-- C6: the claim fails on the code.  In `ahead_adversary_state` (maximising
side's `A` on 4, opponent's `X` on 3, nobody finished) the claim's heuristic
value is `4 − 3 = 1`, but `score` returns
`sum(player-0 positions) − sum(player-1 positions) = 3 − 4 = −1` — the
progress difference is computed for the *minimising* side.  In
`finished_adversary_state` the maximising side has finished, so the claim
demands `+100`, but `score` returns `3 − 10 = −7` (the `p2_terminal` bug of
C5 prevents the terminal branch, and even that branch would return `−100` for
`winner = 1`). -/
theorem claim_C6 :
    GameSim.score ahead_adversary_state = -1
    ∧ GameSim.score finished_adversary_state = -7 := by
  decide

/-- C3 (amended): a move that changes exactly one in-play token's position by
exactly the roll to a destination not occupied by the same side's other token
(the finish field `n_fields` exempted) is accepted; and a move that leaves
*every* token unmoved while some token could legally have moved is rejected
with the matching reason for the first movable token in dictionary order
(`not_moved` for a token in play with `position + roll ≤ n_fields`,
`not_moved_to_board` for a token at home when the roll is 6).  The original
claim's second half is amended: the per-token "not moved" rejections fire
only when *no* token moved at all — a move that advances one token while
leaving another movable token in place is accepted (see the
counterexample). -/
theorem claim_C3 (a b : String) (sa sb : TokState) (roll n_fields target : ℕ) :
    -- acceptance, two tokens, first token moves
    (a ≠ b → sa.in_play = true → 1 ≤ roll → target = sa.position + roll →
      (sb.position ≠ target ∨ target = n_fields) →
      LudoGameMaster.check_move [(a, sa), (b, sb)] 2 [(a, target), (b, sb.position)]
        roll n_fields = .accepted)
    -- acceptance, two tokens, second token moves
    ∧ (a ≠ b → sb.in_play = true → 1 ≤ roll → target = sb.position + roll →
        (sa.position ≠ target ∨ target = n_fields) →
        LudoGameMaster.check_move [(a, sa), (b, sb)] 2 [(a, sa.position), (b, target)]
          roll n_fields = .accepted)
    -- acceptance, single token
    ∧ (sa.in_play = true → 1 ≤ roll → target = sa.position + roll →
        LudoGameMaster.check_move [(a, sa)] 1 [(a, target)] roll n_fields = .accepted)
    -- nothing moved: first token at home and the roll is 6
    ∧ (a ≠ b → sa.in_play = false →
        LudoGameMaster.check_move [(a, sa), (b, sb)] 2
          [(a, sa.position), (b, sb.position)] 6 n_fields
          = .rejected ("not_moved_to_board", some a))
    -- nothing moved: first token in play and able to advance
    ∧ (a ≠ b → sa.in_play = true → roll + sa.position ≤ n_fields →
        LudoGameMaster.check_move [(a, sa), (b, sb)] 2
          [(a, sa.position), (b, sb.position)] roll n_fields
          = .rejected ("not_moved", some a))
    -- nothing moved: first token overshoots, second at home and the roll is 6
    ∧ (a ≠ b → sa.in_play = true → n_fields < 6 + sa.position → sb.in_play = false →
        LudoGameMaster.check_move [(a, sa), (b, sb)] 2
          [(a, sa.position), (b, sb.position)] 6 n_fields
          = .rejected ("not_moved_to_board", some b))
    -- nothing moved: first token at home with roll ≠ 6, second able to advance
    ∧ (a ≠ b → sa.in_play = false → roll ≠ 6 → sb.in_play = true →
        roll + sb.position ≤ n_fields →
        LudoGameMaster.check_move [(a, sa), (b, sb)] 2
          [(a, sa.position), (b, sb.position)] roll n_fields
          = .rejected ("not_moved", some b))
    -- nothing moved: first token overshoots, second able to advance
    ∧ (a ≠ b → sa.in_play = true → n_fields < roll + sa.position → sb.in_play = true →
        roll + sb.position ≤ n_fields →
        LudoGameMaster.check_move [(a, sa), (b, sb)] 2
          [(a, sa.position), (b, sb.position)] roll n_fields
          = .rejected ("not_moved", some b))
    -- nothing moved, single token in play and able to advance
    ∧ (sa.in_play = true → roll + sa.position ≤ n_fields →
        LudoGameMaster.check_move [(a, sa)] 1 [(a, sa.position)] roll n_fields
          = .rejected ("not_moved", some a))
    -- nothing moved, single token at home and the roll is 6
    ∧ (sa.in_play = false →
        LudoGameMaster.check_move [(a, sa)] 1 [(a, sa.position)] 6 n_fields
          = .rejected ("not_moved_to_board", some a)) := by
  open LudoGameMaster in
  refine ⟨?_, ?_, ?_, ?_, ?_, ?_, ?_, ?_, ?_, ?_⟩
  · intro hab hin hr ht hfree
    have hab' : (a == b) = false := by simp [hab]
    have hba' : (b == a) = false := by simp [Ne.symm hab]
    have hba : b ≠ a := Ne.symm hab
    have ha : sa.position ≠ target := by omega
    have hsa : sa.position + roll = target := by omega
    have htaken : is_taken [(a, sa), (b, sb)] target n_fields = false := by
      simp [is_taken]
      intros
      rcases hfree with h | h
      · constructor <;> omega
      · simp_all
    simp [check_move, check_both_tokens_moved, check_token_moved, get_token,
      get_moved_token, List.find?, check_move_loop, ha, hab', hba', hba, hin, hsa, htaken]
  · intro hab hin hr ht hfree
    have hab' : (a == b) = false := by simp [hab]
    have hba' : (b == a) = false := by simp [Ne.symm hab]
    have hba : b ≠ a := Ne.symm hab
    have hb : sb.position ≠ target := by omega
    have hsb : sb.position + roll = target := by omega
    have htaken : is_taken [(a, sa), (b, sb)] target n_fields = false := by
      simp [is_taken]
      intros
      rcases hfree with h | h
      · constructor <;> omega
      · simp_all
    simp [check_move, check_both_tokens_moved, check_token_moved, get_token,
      get_moved_token, List.find?, check_move_loop, hb, hab', hba', hba, hab, hin,
      hsb, htaken]
  · intro hin hr ht
    have ha : sa.position ≠ target := by omega
    have hsa : sa.position + roll = target := by omega
    have htaken : is_taken [(a, sa)] target n_fields = false := by
      simp [is_taken]
      intro h
      omega
    simp [check_move, check_both_tokens_moved, check_token_moved, get_token,
      get_moved_token, List.find?, check_move_loop, ha, hin, hsa, htaken]
  · intro hab hin
    have hab' : (a == b) = false := by simp [hab]
    have hba' : (b == a) = false := by simp [Ne.symm hab]
    simp [check_move, check_both_tokens_moved, check_token_moved, get_token,
      get_moved_token, List.find?, check_move_loop, hab', hba', hin]
  · intro hab hin hcan
    have hab' : (a == b) = false := by simp [hab]
    have hba' : (b == a) = false := by simp [Ne.symm hab]
    have h2 : ¬ (n_fields < roll + sa.position) := by omega
    simp [check_move, check_both_tokens_moved, check_token_moved, get_token,
      get_moved_token, List.find?, check_move_loop, hab', hba', hin, h2]
  · intro hab hin hstuck hbin
    have hab' : (a == b) = false := by simp [hab]
    have hba' : (b == a) = false := by simp [Ne.symm hab]
    simp [check_move, check_both_tokens_moved, check_token_moved, get_token,
      get_moved_token, List.find?, check_move_loop, hab', hba', hin, hbin, hstuck]
  · intro hab hstuck hr6 hbin hcan
    have hab' : (a == b) = false := by simp [hab]
    have hba' : (b == a) = false := by simp [Ne.symm hab]
    have h2 : ¬ (n_fields < roll + sb.position) := by omega
    simp [check_move, check_both_tokens_moved, check_token_moved, get_token,
      get_moved_token, List.find?, check_move_loop, hab', hba', hstuck, hr6, hbin, h2]
  · intro hab hin hstuck hbin hcan
    have hab' : (a == b) = false := by simp [hab]
    have hba' : (b == a) = false := by simp [Ne.symm hab]
    have h2 : ¬ (n_fields < roll + sb.position) := by omega
    simp [check_move, check_both_tokens_moved, check_token_moved, get_token,
      get_moved_token, List.find?, check_move_loop, hab', hba', hin, hstuck, hbin, h2]
  · intro hin hcan
    have h2 : ¬ (n_fields < roll + sa.position) := by omega
    simp [check_move, check_both_tokens_moved, check_token_moved, get_token,
      get_moved_token, List.find?, check_move_loop, hin, h2]
  · intro hin
    simp [check_move, check_both_tokens_moved, check_token_moved, get_token,
      get_moved_token, List.find?, check_move_loop, hin]

/-- C3, counterexample to the claim as stated: `X` (in play on 5) advances by
the roll 3 to the free field 8 while `Y` (in play on 3, with `3 + 3 ≤ 23`)
stays put.  The claim's second half demands rejection with `not_moved` for
`Y`; `_check_move` accepts the move — unmoved tokens are only checked when no
token moved at all. -/
theorem claim_C3_counterexample :
    LudoGameMaster.check_move [("X", ⟨true, 5⟩), ("Y", ⟨true, 3⟩)] 2
      [("X", 8), ("Y", 3)] 3 23 = .accepted
    ∧ (⟨true, 3⟩ : TokState).position + 3 ≤ 23 := by
  decide

/-- C3, witness: the amended claim instantiated at concrete boards. -/
theorem claim_C3_witness :
    LudoGameMaster.check_move [("X", ⟨true, 5⟩), ("Y", ⟨true, 3⟩)] 2
      [("X", 5), ("Y", 6)] 3 23 = .accepted
    ∧ LudoGameMaster.check_move [("X", ⟨false, 0⟩), ("Y", ⟨true, 3⟩)] 2
        [("X", 0), ("Y", 3)] 6 23 = .rejected ("not_moved_to_board", some "X")
    ∧ LudoGameMaster.check_move [("X", ⟨true, 5⟩)] 1 [("X", 5)] 3 23
        = .rejected ("not_moved", some "X")
    ∧ LudoGameMaster.check_move [("X", ⟨true, 20⟩), ("Y", ⟨true, 3⟩)] 2
        [("X", 20), ("Y", 3)] 5 23 = .rejected ("not_moved", some "Y") :=
  ⟨(claim_C3 "X" "Y" ⟨true, 5⟩ ⟨true, 3⟩ 3 23 6).2.1 (by decide) (by decide)
      (by decide) (by decide) (by decide),
   (claim_C3 "X" "Y" ⟨false, 0⟩ ⟨true, 3⟩ 6 23 0).2.2.2.1 (by decide) (by decide),
   (claim_C3 "X" "Y" ⟨true, 5⟩ ⟨true, 3⟩ 3 23 0).2.2.2.2.2.2.2.2.1 (by decide)
      (by decide),
   (claim_C3 "X" "Y" ⟨true, 20⟩ ⟨true, 3⟩ 5 23 0).2.2.2.2.2.2.2.1 (by decide)
      (by decide) (by decide) (by decide) (by decide)⟩

/-- C4: confirmed.  For a 2-token side, whenever both tokens' target
positions differ from their current positions, `_check_move` rejects with
`simultaneous_move` before any per-token legality is examined; for a 1-token
side `_check_both_tokens_moved` returns `False` and the per-token loop can
only report `not_moved_to_board`, `not_moved` or `incorrect_move`, so the
`simultaneous_move` rejection never fires. -/
theorem claim_C4 (a b : String) (sa sb : TokState) (pa pb : ℕ)
    (roll n_fields : ℕ) (tokens : Tokens) (move : MoveDict) (t : Option String) :
    (a ≠ b → sa.position ≠ pa → sb.position ≠ pb →
      LudoGameMaster.check_move [(a, sa), (b, sb)] 2 [(a, pa), (b, pb)] roll n_fields
        = .rejected ("simultaneous_move", none))
    ∧ LudoGameMaster.check_move tokens 1 move roll n_fields
        ≠ .rejected ("simultaneous_move", t) := by
  constructor
  · intro hab ha hb
    have hab' : (a == b) = false := by simp [hab]
    simp [LudoGameMaster.check_move, LudoGameMaster.check_both_tokens_moved,
      LudoGameMaster.check_token_moved, LudoGameMaster.get_token, List.find?,
      ha, hb, hab']
  · rw [LudoGameMaster.check_move]
    simp only [LudoGameMaster.check_both_tokens_moved, Bool.false_eq_true,
      if_false]
    exact check_move_loop_ne_simultaneous _ _ _ _ _ _

/-- C4, witness: `claim_C4` instantiated at a concrete board where both
tokens of the 2-token side moved (each individually a legal advance by the
roll), and at a 1-token board. -/
theorem claim_C4_witness :
    LudoGameMaster.check_move [("X", ⟨true, 5⟩), ("Y", ⟨true, 3⟩)] 2
      [("X", 8), ("Y", 6)] 3 23 = .rejected ("simultaneous_move", none)
    ∧ LudoGameMaster.check_move [("X", ⟨true, 5⟩)] 1 [("X", 8)] 3 23
        ≠ .rejected ("simultaneous_move", none) :=
  ⟨(claim_C4 "X" "Y" ⟨true, 5⟩ ⟨true, 3⟩ 8 6 3 23 [] [] none).1 (by decide)
      (by decide) (by decide),
   (claim_C4 "X" "Y" ⟨true, 5⟩ ⟨true, 3⟩ 8 6 3 23 [("X", ⟨true, 5⟩)]
      [("X", 8)] none).2⟩

/-- C7: the claim fails on the code.  `parse_text` builds `token_dict` from
`matches.group(...)` *before* the `return token_dict if matches else False`
test, so whenever the text does not match the expected
`MY MOVE: <Tok> -> <N>` pattern it raises `AttributeError` (`NoneType` has no
attribute `group`) instead of returning the `PARSE_FAILURE` value `False`;
on a matching text it returns the move dictionary. -/
theorem claim_C7 :
    parse_text "hello" ["X"] 1 = .error "AttributeError"
    ∧ parse_text "MY MOVE: X -> 5" ["X"] 1 = .ok [("X", 5)]
    ∧ parse_text "I will go: X to 4" ["X", "Y"] 2 = .error "AttributeError"
    ∧ parse_text "MY MOVE: X -> 12 ; Y -> 7" ["X", "Y"] 2
        = .ok [("X", 12), ("Y", 7)] := by
  decide

/-- C8: the claim fails on the code.  The abort bookkeeping never runs for
Player 1: on every attempt, `_get_response` raises `AttributeError` at
`self.game.requests += 1` before the reply is even parsed, so
`_does_game_proceed` propagates an exception instead of returning the failure
flag that would mark the episode `ABORTED` — whatever the replies, the
reprompting flag, or the budget.  The second conjunct shows the retry loop
itself does implement the claimed budget logic: for Player 2 (whose replies
skip the broken counters) three consecutive parseable-but-illegal replies
with reprompting enabled exhaust the budget of 3 and yield `can_proceed =
False`. -/
theorem claim_C8 :
    (∀ (tokens : Tokens) (names : List String) (ntk roll nf : ℕ)
        (replies : ℕ → String) (rep : Bool) (limit attempts : ℕ),
        attempts < limit →
        does_game_proceed game_init_attributes "Player 1" tokens names ntk roll nf
          replies rep limit attempts = .error "AttributeError")
    ∧ does_game_proceed game_init_attributes "Player 2" [("A", ⟨false, 0⟩)] ["A"]
        1 1 23 (fun _ => "MY MOVE: A -> 3") true 3 0 = .ok false := by
  constructor
  · intro tokens names ntk roll nf replies rep limit attempts h
    rw [does_game_proceed, dif_pos h]
    rw [get_response_player1 _ (by decide)]
  · have step : ∀ k, k < 3 →
        does_game_proceed game_init_attributes "Player 2" [("A", ⟨false, 0⟩)] ["A"]
          1 1 23 (fun _ => "MY MOVE: A -> 3") true 3 k
        = does_game_proceed game_init_attributes "Player 2" [("A", ⟨false, 0⟩)] ["A"]
          1 1 23 (fun _ => "MY MOVE: A -> 3") true 3 (k + 1) := by
      intro k hk
      rw [does_game_proceed, dif_pos hk]
      rfl
    rw [step 0 (by norm_num), step 1 (by norm_num), step 2 (by norm_num),
      does_game_proceed, dif_neg (by norm_num)]

/-- C8, witness: `claim_C8` instantiated at an episode with reprompting
enabled (budget 3) where Player 1 replies with a perfectly legal move — the
engine still dies with `AttributeError` on the very first reply. -/
theorem claim_C8_witness :
    does_game_proceed game_init_attributes "Player 1" [("X", ⟨false, 0⟩)] ["X"]
      1 6 23 (fun _ => "MY MOVE: X -> 1") true 3 0 = .error "AttributeError" :=
  claim_C8.1 [("X", ⟨false, 0⟩)] ["X"] 1 6 23 (fun _ => "MY MOVE: X -> 1")
    true 3 0 (by norm_num)

/-- C9: the claim fails on the code.  `ProgrammaticPlayer._make_move` calls
`GameSim(n_fields, token_positions, rolls, turn_number)` — four positional
arguments for the five required parameters `(n_fields, n_tokens,
token_positions, rolls, turn)` — so every invocation raises `TypeError`
before `minimax` can run; the response production never succeeds. -/
theorem claim_C9 (token_positions : String → ℕ) (rolls : List (ℕ × ℕ))
    (n_fields turn_number n_tokens : ℕ) :
    make_move token_positions rolls n_fields turn_number n_tokens
      = .error "TypeError"
    ∧ make_move_call_args.length ≠ gameSim_init_params.length :=
  ⟨rfl, by decide⟩

/-- C10: confirmed.  `Game.__init__` initialises none of `requests`,
`requests_parsed`, `requests_violated`, and `_get_response` runs
`self.game.requests += 1` after every Player 1 reply, so the first Player 1
reply of any episode makes `_get_response` raise `AttributeError` instead of
returning a parsed move. -/
theorem claim_C10 :
    ("requests" ∉ game_init_attributes
      ∧ "requests_parsed" ∉ game_init_attributes
      ∧ "requests_violated" ∉ game_init_attributes)
    ∧ ∀ (text : String) (token_names : List String) (n_tokens : ℕ),
        get_response game_init_attributes "Player 1" text token_names n_tokens
          = .error "AttributeError" :=
  ⟨by decide, fun _ _ _ => get_response_player1 _ (by decide) _ _ _⟩

end Ludo
